import Mathlib

/-!
YoutuberAverager: the browser-side task controller (`static/script.js`)

A shallow embedding of the controller script: its two module-level variables, the
part of the page it reads and writes, the browser's table of active interval
timers and the network requests it issues.  Each handler of the script is a
function on an explicit state; an `await` splits a handler into the part that
runs before the request is sent and the part that runs when the response is
delivered, and the event loop is a step function over the events that the
browser can deliver.

Modelling conventions.

* A DOM property is modelled by the string (or boolean) last assigned to it.
* Values decoded from JSON follow the types of the HTTP contract; numbers are
  integer valued and of magnitude below `10 ^ 21`, where the JavaScript
  number-to-string conversion is the decimal numeral.  An optional member that
  is absent is `none`.
* A number computed by the script is a double: `parseInt` rounds the integer it
  reads to the nearest double, or to an infinity, and the integer-valued double
  is modelled by its exact value.
* A thrown `Error` is modelled by its `message`.
-/

namespace YoutuberAverager

/-! ## JavaScript built-ins used by the script -/

/-- Code points that `parseInt` skips at the start of its argument: the ECMAScript
`WhiteSpace` and `LineTerminator` productions. -/
def isWhiteSpace (c : Char) : Bool :=
  c.toNat ∈ [0x09, 0x0A, 0x0B, 0x0C, 0x0D, 0x20, 0xA0, 0x1680, 0x2028, 0x2029,
    0x202F, 0x205F, 0x3000, 0xFEFF] || (0x2000 ≤ c.toNat && c.toNat ≤ 0x200A)

/-- Value of a character as a digit (`0`-`9`, `a`-`z`, `A`-`Z`), if it is one. -/
def digitValue (c : Char) : Option Nat :=
  if '0' ≤ c ∧ c ≤ '9' then some (c.toNat - '0'.toNat)
  else if 'a' ≤ c ∧ c ≤ 'z' then some (c.toNat - 'a'.toNat + 10)
  else if 'A' ≤ c ∧ c ≤ 'Z' then some (c.toNat - 'A'.toNat + 10)
  else none

/-- Whether `c` is a digit of radix `R`. -/
def isRadixDigit (R : Nat) (c : Char) : Bool :=
  match digitValue c with
  | some d => decide (d < R)
  | none => false

/-- The mathematical integer denoted by a list of radix-`R` digits. -/
def radixValue (R : Nat) (Z : List Char) : Nat :=
  Z.foldl (fun acc c => acc * R + (digitValue c).getD 0) 0

/-- Sign step of `parseInt`: `-1` when the trimmed input starts with `-`. -/
def parseSign (S : List Char) : Int :=
  match S with
  | '-' :: _ => -1
  | _ => 1

/-- Removal of one leading `+` or `-`. -/
def dropSign (S : List Char) : List Char :=
  match S with
  | '+' :: rest => rest
  | '-' :: rest => rest
  | _ => S

/-- Radix selection of `parseInt` called without a radix: `0x` / `0X` selects 16
and is removed, anything else is read in radix 10. -/
def selectRadix (S : List Char) : Nat × List Char :=
  match S with
  | '0' :: 'x' :: rest => (16, rest)
  | '0' :: 'X' :: rest => (16, rest)
  | _ => (10, S)

/-- The values a JavaScript number takes in the script's arithmetic: `NaN`, an
integer-valued double given by its exact value (`-0` is identified with `0`),
or an infinity. -/
inductive JsNumber where
  | nan
  | finite (n : Int)
  | infinite (negative : Bool)
  deriving DecidableEq, Repr

/-- How many low bits a natural number has beyond the 53 bits of a double's
significand: the least `e` with `n / 2 ^ e < 2 ^ 53`, searched with `fuel`
halvings. -/
def excessBits (fuel n : Nat) : Nat :=
  match fuel with
  | 0 => 0
  | fuel + 1 => if n < 2 ^ 53 then 0 else excessBits fuel (n / 2) + 1

/-- Conversion of a natural number to the nearest double, ties to the even
significand; `none` when the result is beyond the largest double, which is
`Infinity`.  Numbers below `2 ^ 53` are kept exactly. -/
def roundToDouble (n : Nat) : Option Nat :=
  if n < 2 ^ 53 then some n
  else
    let e := excessBits n n
    let q := n / 2 ^ e
    let r := n % 2 ^ e
    let q := if 2 ^ e < 2 * r ∨ (2 * r = 2 ^ e ∧ q % 2 = 1) then q + 1 else q
    if q * 2 ^ e < 2 ^ 1024 then some (q * 2 ^ e) else none

/-- The number value of `sign × mathInt`, the last step of `parseInt`. -/
def toNumber (sign : Int) (mathInt : Nat) : JsNumber :=
  match roundToDouble mathInt with
  | some v => .finite (sign * (v : Int))
  | none => .infinite (decide (sign < 0))

/-- The global `parseInt(string)` with the radix omitted: leading white space is
skipped, a sign and a `0x` prefix are read, then the longest run of digits of
the radix; no digit gives `NaN`, otherwise the digits are converted to a
double. -/
def parseInt (s : String) : JsNumber :=
  let S := s.toList.dropWhile isWhiteSpace
  let sign := parseSign S
  let S := dropSign S
  let (R, S) := selectRadix S
  let Z := S.takeWhile (isRadixDigit R)
  if Z.isEmpty then .nan else toNumber sign (radixValue R Z)

/-- The `x || 1` idiom on the result of `parseInt`: `NaN` and `0` are falsy, every
other number, an infinity included, is kept. -/
def orOne (x : JsNumber) : JsNumber :=
  match x with
  | .nan => .finite 1
  | .finite n => if n = 0 then .finite 1 else .finite n
  | .infinite negative => .infinite negative

/-- How `JSON.stringify` writes a number member: `NaN` and the infinities are
written as `null`, here `none`. -/
def jsonNumber (x : JsNumber) : Option Int :=
  match x with
  | .finite n => some n
  | .nan => none
  | .infinite _ => none

/-- String conversion inside a template literal of an array element that may be
missing (`undefined`). -/
def templateElem (x : Option Int) : String :=
  match x with
  | some n => toString n
  | none => "undefined"

/-- String conversion inside a template literal of a variable holding `null` or
a string. -/
def templateNullable (x : Option String) : String :=
  match x with
  | some s => s
  | none => "null"

/-- Truthiness of a variable holding `null` or a string: the empty string is
falsy. -/
def truthyString (x : Option String) : Bool :=
  match x with
  | some s => s != ""
  | none => false

/-- Truthiness of a variable holding `null` or a number. -/
def truthyNumber (x : Option Nat) : Bool :=
  match x with
  | some n => n != 0
  | none => false

/-! ## Data exchanged with the backend -/

/-- Body of `POST /api/process` as serialised by `JSON.stringify`; a number member
written as `null` is `none`. -/
structure JobRequest where
  url : String
  frame_interval : Option Int
  max_frames : Option Int
  quality : String
  deriving DecidableEq, Repr

/-- The `results` member of a status snapshot. -/
structure Results where
  overall_color : List Int
  overall_color_hex : String
  total_frames : Int
  timeline_image : String
  results_file : String
  deriving DecidableEq, Repr

/-- The JSON body of `GET /api/status/{task_id}`. -/
structure Snapshot where
  status : String
  progress : Int
  message : String
  results : Option Results
  deriving DecidableEq, Repr

/-- How an awaited `fetch` followed by `response.json()` completes: a decoded body
of a response with `response.ok`, a response that is not `ok`, or a rejection
(of `fetch` or of `json()`) carrying the error's message. -/
inductive Response (α : Type) where
  | ok (body : α)
  | notOk
  | rejected (message : String)
  deriving DecidableEq, Repr

/-- The JSON body of a successful `POST /api/process`. -/
structure ProcessData where
  task_id : String
  deriving DecidableEq, Repr

/-- A request issued through `fetch`: the `POST` of a job request, or a `GET`. -/
inductive Request where
  | post (url : String) (body : JobRequest)
  | get (url : String)
  deriving DecidableEq, Repr

/-- What the script takes from its host: the locale's `Number.prototype.toLocaleString`
and the message the engine puts in the `TypeError` for a property read on
`undefined`. -/
structure Engine where
  toLocaleString : Int → String
  typeErrorMessage : String


/-! ## The page and the controller state -/

/-- The properties of the page that the script assigns. -/
structure Dom where
  /-- The `disabled` flag of `submitBtn`. -/
  submitDisabled : Bool
  /-- The `textContent` of `submitText`. -/
  submitText : String
  /-- The `style.display` of `submitSpinner`. -/
  submitSpinner : String
  /-- The `style.display` of `resultsSection`. -/
  resultsSection : String
  /-- The `style.display` of `errorSection`. -/
  errorSection : String
  /-- The `style.display` of `progressSection`. -/
  progressSection : String
  /-- The `style.width` of `progressBar`. -/
  progressBarWidth : String
  /-- The `textContent` of `progressMessage`. -/
  progressMessage : String
  /-- The `style.backgroundColor` of `colorBox`. -/
  colorBox : String
  /-- The `textContent` of `rgbValue`. -/
  rgbValue : String
  /-- The `textContent` of `hexValue`. -/
  hexValue : String
  /-- The `textContent` of `frameCount`. -/
  frameCount : String
  /-- The `src` of `timelineImage`. -/
  timelineImage : String
  /-- The `href` of `downloadJson`. -/
  downloadJson : String
  /-- The `href` of `downloadImage`. -/
  downloadImage : String
  /-- The `textContent` of `errorMessage`. -/
  errorMessage : String
  deriving DecidableEq, Repr

/-- The values of the four form controls read by the submit handler. -/
structure FormInputs where
  youtubeUrl : String
  frameInterval : String
  maxFrames : String
  quality : String
  deriving DecidableEq, Repr

/-- The two module-level variables of the script together with what it acts on:
the interval timers it has scheduled and not cancelled, the page, the requests
it has issued so far, and how many requests of each kind await their response. -/
structure State where
  currentTaskId : Option String
  statusCheckInterval : Option Nat
  timers : List Nat
  dom : Dom
  sent : List Request
  pendingProcess : Nat
  pendingStatus : Nat
  deriving DecidableEq, Repr

/-- Modelled from the spec: the page markup (`index.html`) is not among the
sources.  Before the first submission the three panels are hidden, the submit
control is idle and the progress bar is at 0%. -/
def initialDom : Dom where
  submitDisabled := false
  submitText := "Analyze Video"
  submitSpinner := "none"
  resultsSection := "none"
  errorSection := "none"
  progressSection := "none"
  progressBarWidth := "0%"
  progressMessage := ""
  colorBox := ""
  rgbValue := ""
  hexValue := ""
  frameCount := ""
  timelineImage := ""
  downloadJson := ""
  downloadImage := ""
  errorMessage := ""

/-- The state when the script has been loaded: lines 1-2. -/
def initialState : State where
  currentTaskId := none
  statusCheckInterval := none
  timers := []
  dom := initialDom
  sent := []
  pendingProcess := 0
  pendingStatus := 0

/-- The browser's `clearInterval`: a handle that names no active timer (such as
`null`) is ignored. -/
def clearInterval (handle : Option Nat) (timers : List Nat) : List Nat :=
  match handle with
  | some h => timers.filter (fun t => t != h)
  | none => timers

/-- Which handles `setInterval` may return: greater than zero and not naming a
timer that is active. -/
def freshHandle (h : Nat) (timers : List Nat) : Bool :=
  h != 0 && !timers.contains h

/-! ## The functions of the script -/

/-- Lines 92-98. -/
def updateProgress (status : Snapshot) (d : Dom) : Dom :=
  { d with
    progressBarWidth := toString status.progress ++ "%"
    progressMessage := status.message }

/-- A DOM state together with the message of the error thrown, if any. -/
structure Completion where
  dom : Dom
  thrown : Option String
  deriving DecidableEq, Repr

/-- Lines 100-126.  Reading `results.overall_color` throws a `TypeError` when
`results` is `undefined`, after the two panels have been switched. -/
def showResults (E : Engine) (currentTaskId : Option String) (results : Option Results)
    (d : Dom) : Completion :=
  let d := { d with progressSection := "none" }
  let d := { d with resultsSection := "block" }
  match results with
  | none => { dom := d, thrown := some E.typeErrorMessage }
  | some results =>
    let rgb := results.overall_color
    let rgbString := "rgb(" ++ templateElem rgb[0]? ++ ", " ++ templateElem rgb[1]? ++ ", "
      ++ templateElem rgb[2]? ++ ")"
    let d := { d with colorBox := rgbString }
    let d := { d with rgbValue := "(" ++ templateElem rgb[0]? ++ ", " ++ templateElem rgb[1]?
      ++ ", " ++ templateElem rgb[2]? ++ ")" }
    let d := { d with hexValue := results.overall_color_hex }
    let d := { d with frameCount := E.toLocaleString results.total_frames }
    let d := { d with timelineImage := "/api/image/" ++ templateNullable currentTaskId ++ "/"
      ++ results.timeline_image }
    let d := { d with downloadJson := "/api/download/" ++ templateNullable currentTaskId ++ "/"
      ++ results.results_file }
    let d := { d with downloadImage := "/api/download/" ++ templateNullable currentTaskId
      ++ "/" ++ results.timeline_image }
    { dom := d, thrown := none }

/-- Lines 128-136. -/
def showError (message : String) (d : Dom) : Dom :=
  let d := { d with progressSection := "none" }
  let d := { d with errorSection := "block" }
  { d with errorMessage := message }

/-- Lines 138-146. -/
def resetSubmitButton (d : Dom) : Dom :=
  { d with submitDisabled := false, submitText := "Analyze Video", submitSpinner := "none" }

/-- Lines 148-157. -/
def resetForm (s : State) : State :=
  let d := { s.dom with errorSection := "none" }
  let d := { d with resultsSection := "none" }
  let d := { d with progressSection := "none" }
  let s := { s with dom := d, currentTaskId := none }
  if truthyNumber s.statusCheckInterval then
    { s with timers := clearInterval s.statusCheckInterval s.timers, statusCheckInterval := none }
  else s

/-- Lines 58-63 and 89: `startStatusPolling`, where `handle` is what `setInterval`
returns.  The callback it registers is `tickCallback`. -/
def startStatusPolling (handle : Nat) (s : State) : State :=
  let s := if truthyNumber s.statusCheckInterval then
      { s with timers := clearInterval s.statusCheckInterval s.timers }
    else s
  { s with statusCheckInterval := some handle, timers := handle :: s.timers }

/-- Lines 7-10 and 34-39: the job request built from the form fields. -/
def buildRequest (f : FormInputs) : JobRequest :=
  let url := f.youtubeUrl
  let frameInterval := orOne (parseInt f.frameInterval)
  let maxFrames : Option String := if f.maxFrames = "" then none else some f.maxFrames
  let quality := f.quality
  { url := url
    frame_interval := jsonNumber frameInterval
    max_frames := match maxFrames with
      | some m => jsonNumber (parseInt m)
      | none => none
    quality := quality }

/-- Lines 5-40: the submit handler up to its first `await`, the request sent. -/
def submitHandler (f : FormInputs) (s : State) : State :=
  let body := buildRequest f
  let d := { s.dom with submitDisabled := true }
  let d := { d with submitText := "Processing..." }
  let d := { d with submitSpinner := "inline-block" }
  let d := { d with resultsSection := "none" }
  let d := { d with errorSection := "none" }
  let d := { d with progressSection := "block" }
  { s with
    dom := d
    sent := s.sent ++ [Request.post "/api/process" body]
    pendingProcess := s.pendingProcess + 1 }

/-- Lines 52-55: the `catch` block of the submit handler. -/
def submitCatch (message : String) (s : State) : State :=
  { s with dom := resetSubmitButton (showError message s.dom) }

/-- Lines 42-55: the submit handler from the delivery of the response on;
`handle` is what `setInterval` returns if the handler reaches it. -/
def submitResumed (r : Response ProcessData) (handle : Nat) (s : State) : State :=
  match r with
  | .notOk => submitCatch "Failed to start processing" s
  | .rejected message => submitCatch message s
  | .ok data =>
    let s := { s with currentTaskId := some data.task_id }
    startStatusPolling handle s

/-- Lines 63-67: the timer callback up to its `await`. -/
def tickCallback (s : State) : State :=
  if !truthyString s.currentTaskId then s
  else
    { s with
      sent := s.sent ++ [Request.get ("/api/status/" ++ templateNullable s.currentTaskId)]
      pendingStatus := s.pendingStatus + 1 }

/-- Lines 84-88: the `catch` block of the timer callback. -/
def tickCatch (message : String) (s : State) : State :=
  let s := { s with timers := clearInterval s.statusCheckInterval s.timers }
  { s with dom := resetSubmitButton (showError message s.dom) }

/-- Lines 68-88: the timer callback from the delivery of the response on. -/
def tickResumed (E : Engine) (r : Response Snapshot) (s : State) : State :=
  match r with
  | .notOk => tickCatch "Failed to get status" s
  | .rejected message => tickCatch message s
  | .ok status =>
    let s := { s with dom := updateProgress status s.dom }
    if status.status = "completed" then
      let s := { s with timers := clearInterval s.statusCheckInterval s.timers }
      let c := showResults E s.currentTaskId status.results s.dom
      match c.thrown with
      | some message => tickCatch message { s with dom := c.dom }
      | none => { s with dom := resetSubmitButton c.dom }
    else if status.status = "error" then
      let s := { s with timers := clearInterval s.statusCheckInterval s.timers }
      let s := { s with dom := showError status.message s.dom }
      { s with dom := resetSubmitButton s.dom }
    else s

/-! ## The event loop -/

/-- What the browser can deliver to the script. -/
inductive Event where
  /-- The form is submitted with these field values. -/
  | submit (f : FormInputs)
  /-- A pending `POST /api/process` completes. -/
  | processResponse (r : Response ProcessData) (handle : Nat)
  /-- The interval timer `id` fires. -/
  | tick (id : Nat)
  /-- A pending `GET /api/status/...` completes. -/
  | statusResponse (r : Response Snapshot)
  /-- The page calls `resetForm()`. -/
  | reset
  deriving DecidableEq, Repr

/-- Whether the response makes the submit handler call `setInterval`. -/
def Response.isOk {α : Type} (r : Response α) : Bool :=
  match r with
  | .ok _ => true
  | _ => false

/-- The timers still active when `startStatusPolling` reaches `setInterval`. -/
def timersAtSetInterval (s : State) : List Nat :=
  if truthyNumber s.statusCheckInterval then clearInterval s.statusCheckInterval s.timers
  else s.timers

/-- One turn of the event loop; `none` when the browser cannot deliver the event
in this state: a response with no request pending, a tick of a timer that is
not active, or a handle that `setInterval` cannot return. -/
def step (E : Engine) (s : State) (e : Event) : Option State :=
  match e with
  | .submit f => some (submitHandler f s)
  | .processResponse r handle =>
    if s.pendingProcess = 0 then none
    else if r.isOk && !freshHandle handle (timersAtSetInterval s) then none
    else some (submitResumed r handle { s with pendingProcess := s.pendingProcess - 1 })
  | .tick id =>
    if s.timers.contains id then some (tickCallback s) else none
  | .statusResponse r =>
    if s.pendingStatus = 0 then none
    else some (tickResumed E r { s with pendingStatus := s.pendingStatus - 1 })
  | .reset => some (resetForm s)

/-- The state after a sequence of events, when each can be delivered in turn. -/
def run (E : Engine) (s : State) (es : List Event) : Option State :=
  match es with
  | [] => some s
  | e :: rest =>
    match step E s e with
    | some s1 => run E s1 rest
    | none => none

/-- The requests in a log that are status polls. -/
def statusRequests (log : List Request) : List String :=
  log.filterMap fun r =>
    match r with
    | .get url => some url
    | .post _ _ => none

/-- Whether the event is the delivery of a successful `POST /api/process`
response, the only place where `startStatusPolling` is called. -/
def Event.isProcessOk (e : Event) : Bool :=
  match e with
  | .processResponse r _ => r.isOk
  | _ => false

/-- Whether the event is a submission of the form. -/
def Event.isSubmit (e : Event) : Bool :=
  match e with
  | .submit _ => true
  | _ => false

/-- The state reached from the initial one by the events `es`; the initial state
when they cannot all be delivered. -/
def stateAfter (E : Engine) (es : List Event) : State :=
  (run E initialState es).getD initialState

/-- Whether a panel with this `style.display` is shown. -/
def visible (display : String) : Bool :=
  display != "none"

/-- A host used for the concrete runs below. -/
def sampleEngine : Engine where
  toLocaleString := fun n => toString n
  typeErrorMessage := "results is undefined"

/-! ## Invariant and sample runs -/

/-- The invariant of the two timer fields: no timer is active, or exactly one is
and `statusCheckInterval` holds its (non-zero) handle. -/
def TimerInv (s : State) : Prop :=
  s.timers = [] ∨ ∃ t, t ≠ 0 ∧ s.timers = [t] ∧ s.statusCheckInterval = some t

/-- Two submissions whose responses both arrive after the second submission, with
a tick of the first timer in between. -/
def doubleSubmit : List Event :=
  [ .submit ⟨"https://youtu.be/abc", "2", "100", "high"⟩,
    .submit ⟨"https://youtu.be/xyz", "1", "", "low"⟩,
    .processResponse (.ok ⟨"t1"⟩) 1,
    .tick 1,
    .processResponse (.ok ⟨"t2"⟩) 2 ]

/-- A submission that has been accepted and polled once, the reply outstanding. -/
def pollingRun : List Event :=
  [ .submit ⟨"https://youtu.be/abc", "2", "100", "high"⟩,
    .processResponse (.ok ⟨"t1"⟩) 1,
    .tick 1 ]

/-- A submission followed by `resetForm()` while its response is outstanding. -/
def submitThenReset : List Event :=
  [ .submit ⟨"https://youtu.be/abc", "2", "100", "high"⟩,
    .reset ]

/-- The run `submitThenReset` continued by the success response of the submission
and a tick of the timer it starts; no further submission is made. -/
def inFlightAtReset : List Event :=
  submitThenReset ++ [ .processResponse (.ok ⟨"t1"⟩) 1, .tick 1 ]

/-- A well-formed results payload. -/
def sampleResults : Results where
  overall_color := [10, 20, 30]
  overall_color_hex := "#0a141e"
  total_frames := 1200
  timeline_image := "timeline.png"
  results_file := "results.json"

/-- A task that is submitted, accepted, polled once and reported completed. -/
def completedRun : List Event :=
  [ .submit ⟨"https://youtu.be/abc", "2", "100", "high"⟩,
    .processResponse (.ok ⟨"t1"⟩) 1,
    .tick 1,
    .statusResponse (.ok ⟨"completed", 100, "Done", some sampleResults⟩) ]

/-- A task that is reported completed by a snapshot without a `results` member. -/
def completedWithoutResults : List Event :=
  [ .submit ⟨"https://youtu.be/abc", "2", "100", "high"⟩,
    .processResponse (.ok ⟨"t1"⟩) 1,
    .tick 1,
    .statusResponse (.ok ⟨"completed", 100, "Done", none⟩) ]

/-- A task polled twice before the first reply: the first reply is a completed
snapshot with a well-formed payload, the second a response that is not `ok`. -/
def overlappingPolls : List Event :=
  [ .submit ⟨"https://youtu.be/abc", "2", "100", "high"⟩,
    .processResponse (.ok ⟨"t1"⟩) 1,
    .tick 1,
    .tick 1,
    .statusResponse (.ok ⟨"completed", 100, "Done", some sampleResults⟩),
    .statusResponse .notOk ]

/-! ## The timer invariant -/

theorem timerInv_initial : TimerInv initialState := Or.inl rfl

theorem clearInterval_nil (h : Option Nat) : clearInterval h [] = [] := by
  cases h <;> rfl

theorem clearInterval_of_timerInv {s : State} (hs : TimerInv s) :
    clearInterval s.statusCheckInterval s.timers = [] := by
  rcases hs with h | ⟨t, _, ht, hsci⟩
  · rw [h]; exact clearInterval_nil _
  · rw [ht, hsci]; simp [clearInterval]

theorem truthy_of_timerInv {s : State} (hs : TimerInv s) (hne : s.timers ≠ []) :
    truthyNumber s.statusCheckInterval = true := by
  rcases hs with h | ⟨t, ht0, _, hsci⟩
  · exact absurd h hne
  · rw [hsci]; simp [truthyNumber, ht0]

/-- In a state satisfying the invariant, what `startStatusPolling` leaves active
is the new timer alone. -/
theorem startStatusPolling_timers {s : State} (hs : TimerInv s) (handle : Nat) :
    (startStatusPolling handle s).timers = [handle] ∧
      (startStatusPolling handle s).statusCheckInterval = some handle := by
  unfold startStatusPolling
  by_cases htr : truthyNumber s.statusCheckInterval = true
  · simp [htr, clearInterval_of_timerInv hs]
  · have hnil : s.timers = [] := by
      by_contra hne
      exact htr (truthy_of_timerInv hs hne)
    simp [htr, hnil]

theorem resetForm_timers {s : State} (hs : TimerInv s) : (resetForm s).timers = [] := by
  unfold resetForm
  by_cases htr : truthyNumber s.statusCheckInterval = true
  · simp [htr, clearInterval_of_timerInv hs]
  · have hnil : s.timers = [] := by
      by_contra hne
      exact htr (truthy_of_timerInv hs hne)
    simp [htr, hnil]

theorem timerInv_congr {s s1 : State} (hs : TimerInv s) (ht : s1.timers = s.timers)
    (hi : s1.statusCheckInterval = s.statusCheckInterval) : TimerInv s1 := by
  unfold TimerInv at *
  rw [ht, hi]; exact hs

/-- The timers the continuation of a tick leaves active: none, or those it found. -/
theorem tickResumed_timers (E : Engine) (r : Response Snapshot) {s : State}
    (hs : TimerInv s) :
    ((tickResumed E r s).timers = [] ∨ (tickResumed E r s).timers = s.timers) ∧
      (tickResumed E r s).statusCheckInterval = s.statusCheckInterval := by
  have hc := clearInterval_of_timerInv hs
  cases r with
  | notOk => simp [tickResumed, tickCatch, hc]
  | rejected message => simp [tickResumed, tickCatch, hc]
  | ok status =>
    unfold tickResumed
    by_cases h1 : status.status = "completed"
    · simp only [h1, if_true]
      cases hthrown : (showResults E s.currentTaskId status.results
          (updateProgress status s.dom)).thrown with
      | none => simp [hc]
      | some message => simp [tickCatch, hc, clearInterval_nil]
    · by_cases h2 : status.status = "error"
      · simp [h1, h2, hc]
      · simp [h1, h2]

/-! ### Inversion of `step` -/

theorem step_processResponse_some {E : Engine} {s s1 : State} {r : Response ProcessData}
    {handle : Nat} (h : step E s (.processResponse r handle) = some s1) :
    s.pendingProcess ≠ 0 ∧
      (r.isOk = true → freshHandle handle (timersAtSetInterval s) = true) ∧
      s1 = submitResumed r handle { s with pendingProcess := s.pendingProcess - 1 } := by
  simp only [step] at h
  split_ifs at h with h1 h2
  refine ⟨h1, ?_, (Option.some.inj h).symm⟩
  intro hok
  simpa [hok] using h2

theorem step_tick_some {E : Engine} {s s1 : State} {id : Nat}
    (h : step E s (.tick id) = some s1) : id ∈ s.timers ∧ s1 = tickCallback s := by
  simp only [step] at h
  split_ifs at h with h1
  exact ⟨by simpa using h1, (Option.some.inj h).symm⟩

theorem step_statusResponse_some {E : Engine} {s s1 : State} {r : Response Snapshot}
    (h : step E s (.statusResponse r) = some s1) :
    s.pendingStatus ≠ 0 ∧
      s1 = tickResumed E r { s with pendingStatus := s.pendingStatus - 1 } := by
  simp only [step] at h
  split_ifs at h with h1
  exact ⟨h1, (Option.some.inj h).symm⟩

theorem timerInv_step (E : Engine) {s s1 : State} (e : Event) (hs : TimerInv s)
    (h : step E s e = some s1) : TimerInv s1 := by
  cases e with
  | submit f =>
    simp only [step, Option.some.injEq] at h
    subst h
    exact timerInv_congr hs rfl rfl
  | processResponse r handle =>
    obtain ⟨_, hfresh, rfl⟩ := step_processResponse_some h
    cases r with
    | notOk => exact timerInv_congr hs rfl rfl
    | rejected message => exact timerInv_congr hs rfl rfl
    | ok data =>
      have hne : handle ≠ 0 := by
        intro h0
        have := hfresh rfl
        simp [freshHandle, h0] at this
      have hsp := startStatusPolling_timers
        (s := { s with pendingProcess := s.pendingProcess - 1
                       currentTaskId := some data.task_id })
        (timerInv_congr hs rfl rfl) handle
      exact Or.inr ⟨handle, hne, hsp.1, hsp.2⟩
  | tick id =>
    obtain ⟨_, rfl⟩ := step_tick_some h
    unfold tickCallback
    split
    · exact hs
    · exact timerInv_congr hs rfl rfl
  | statusResponse r =>
    obtain ⟨_, rfl⟩ := step_statusResponse_some h
    have hs1 : TimerInv { s with pendingStatus := s.pendingStatus - 1 } :=
      timerInv_congr hs rfl rfl
    obtain ⟨ht, hi⟩ := tickResumed_timers E r hs1
    rcases ht with ht | ht
    · exact Or.inl ht
    · exact timerInv_congr hs1 ht hi
  | reset =>
    simp only [step, Option.some.injEq] at h
    subst h
    exact Or.inl (resetForm_timers hs)

theorem timerInv_run (E : Engine) (es : List Event) :
    ∀ {s s1 : State}, TimerInv s → run E s es = some s1 → TimerInv s1 := by
  induction es with
  | nil =>
    intro s s1 hs h
    simp only [run, Option.some.injEq] at h
    subst h
    exact hs
  | cons e rest ih =>
    intro s s1 hs h
    simp only [run] at h
    cases hstep : step E s e with
    | none => simp [hstep] at h
    | some s2 =>
      simp only [hstep] at h
      exact ih (timerInv_step E e hs hstep) h

theorem timerInv_reachable (E : Engine) (es : List Event) {s : State}
    (h : run E initialState es = some s) : TimerInv s :=
  timerInv_run E es timerInv_initial h

/-! ## Runs without a successful submission -/

theorem tickResumed_sent (E : Engine) (r : Response Snapshot) (s : State) :
    (tickResumed E r s).sent = s.sent := by
  cases r with
  | notOk => rfl
  | rejected message => rfl
  | ok status =>
    unfold tickResumed
    by_cases h1 : status.status = "completed"
    · simp only [h1, if_true]
      cases (showResults E s.currentTaskId status.results (updateProgress status s.dom)).thrown
        <;> rfl
    · by_cases h2 : status.status = "error"
      · simp [h1, h2]
      · simp [h1, h2]

/-- What `resetForm` does to everything but the timer fields. -/
theorem resetForm_fields (s : State) :
    (resetForm s).sent = s.sent ∧ (resetForm s).currentTaskId = none ∧
      (resetForm s).dom.progressSection = "none" ∧
      (resetForm s).dom.resultsSection = "none" ∧
      (resetForm s).dom.errorSection = "none" := by
  unfold resetForm
  by_cases h : truthyNumber s.statusCheckInterval = true <;> simp [h]

theorem resetForm_sent (s : State) : (resetForm s).sent = s.sent :=
  (resetForm_fields s).1

theorem statusRequests_append_post (log : List Request) (url : String) (body : JobRequest) :
    statusRequests (log ++ [Request.post url body]) = statusRequests log := by
  simp [statusRequests]

/-- While no timer is active and no successful `/api/process` response is
delivered, no timer becomes active and no status request is issued. -/
theorem run_without_timer (E : Engine) (es : List Event) :
    ∀ {s s1 : State}, s.timers = [] → (es.all fun e => !e.isProcessOk) = true →
      run E s es = some s1 →
      s1.timers = [] ∧ statusRequests s1.sent = statusRequests s.sent := by
  induction es with
  | nil =>
    intro s s1 ht _ h
    simp only [run, Option.some.injEq] at h
    subst h
    exact ⟨ht, rfl⟩
  | cons e rest ih =>
    intro s s1 ht hall h
    simp only [List.all_cons, Bool.and_eq_true] at hall
    obtain ⟨he, hrest⟩ := hall
    simp only [run] at h
    cases hstep : step E s e with
    | none => simp [hstep] at h
    | some s2 =>
      simp only [hstep] at h
      have key : s2.timers = [] ∧ statusRequests s2.sent = statusRequests s.sent := by
        cases e with
        | submit f =>
          simp only [step, Option.some.injEq] at hstep
          subst hstep
          exact ⟨ht, statusRequests_append_post _ _ _⟩
        | processResponse r handle =>
          obtain ⟨_, _, rfl⟩ := step_processResponse_some hstep
          cases r with
          | notOk => exact ⟨ht, rfl⟩
          | rejected message => exact ⟨ht, rfl⟩
          | ok data => simp [Event.isProcessOk, Response.isOk] at he
        | tick id =>
          obtain ⟨hmem, _⟩ := step_tick_some hstep
          rw [ht] at hmem
          exact absurd hmem (List.not_mem_nil id)
        | statusResponse r =>
          obtain ⟨_, rfl⟩ := step_statusResponse_some hstep
          have hinv : TimerInv { s with pendingStatus := s.pendingStatus - 1 } := Or.inl ht
          obtain ⟨htm, _⟩ := tickResumed_timers E r hinv
          refine ⟨?_, by rw [tickResumed_sent]⟩
          rcases htm with htm | htm
          · exact htm
          · rw [htm]; exact ht
        | reset =>
          simp only [step, Option.some.injEq] at hstep
          subst hstep
          exact ⟨resetForm_timers (Or.inl ht), by rw [resetForm_sent]⟩
      obtain ⟨h1, h2⟩ := ih key.1 hrest h
      exact ⟨h1, h2.trans key.2⟩

theorem tickResumed_pendingProcess (E : Engine) (r : Response Snapshot) (s : State) :
    (tickResumed E r s).pendingProcess = s.pendingProcess := by
  cases r with
  | notOk => rfl
  | rejected message => rfl
  | ok status =>
    unfold tickResumed
    by_cases h1 : status.status = "completed"
    · simp only [h1, if_true]
      cases (showResults E s.currentTaskId status.results (updateProgress status s.dom)).thrown
        <;> rfl
    · by_cases h2 : status.status = "error"
      · simp [h1, h2]
      · simp [h1, h2]

theorem resetForm_pendingProcess (s : State) :
    (resetForm s).pendingProcess = s.pendingProcess := by
  unfold resetForm
  by_cases h : truthyNumber s.statusCheckInterval = true <;> simp [h]

/-- While no timer is active, no submission is outstanding and none is made, no
timer becomes active and no status request is issued. -/
theorem run_without_submission (E : Engine) (es : List Event) :
    ∀ {s s1 : State}, s.timers = [] → s.pendingProcess = 0 →
      (es.all fun e => !e.isSubmit) = true → run E s es = some s1 →
      s1.timers = [] ∧ statusRequests s1.sent = statusRequests s.sent := by
  induction es with
  | nil =>
    intro s s1 ht _ _ h
    simp only [run, Option.some.injEq] at h
    subst h
    exact ⟨ht, rfl⟩
  | cons e rest ih =>
    intro s s1 ht hp hall h
    simp only [List.all_cons, Bool.and_eq_true] at hall
    obtain ⟨he, hrest⟩ := hall
    simp only [run] at h
    cases hstep : step E s e with
    | none => simp [hstep] at h
    | some s2 =>
      simp only [hstep] at h
      have key : s2.timers = [] ∧ s2.pendingProcess = 0 ∧
          statusRequests s2.sent = statusRequests s.sent := by
        cases e with
        | submit f => simp [Event.isSubmit] at he
        | processResponse r handle =>
          obtain ⟨hne, _, _⟩ := step_processResponse_some hstep
          exact absurd hp hne
        | tick id =>
          obtain ⟨hmem, _⟩ := step_tick_some hstep
          rw [ht] at hmem
          exact absurd hmem (List.not_mem_nil id)
        | statusResponse r =>
          obtain ⟨_, rfl⟩ := step_statusResponse_some hstep
          have hinv : TimerInv { s with pendingStatus := s.pendingStatus - 1 } := Or.inl ht
          obtain ⟨htm, _⟩ := tickResumed_timers E r hinv
          refine ⟨?_, by rw [tickResumed_pendingProcess]; exact hp,
            by rw [tickResumed_sent]⟩
          rcases htm with htm | htm
          · exact htm
          · rw [htm]; exact ht
        | reset =>
          simp only [step, Option.some.injEq] at hstep
          subst hstep
          exact ⟨resetForm_timers (Or.inl ht), by rw [resetForm_pendingProcess]; exact hp,
            by rw [resetForm_sent]⟩
      obtain ⟨h1, h2⟩ := ih key.1 key.2.1 hrest h
      exact ⟨h1, h2.trans key.2.2⟩

/-- After a terminal snapshot no timer is left, in a state satisfying the
invariant. -/
theorem tickResumed_terminal_timers (E : Engine) (snap : Snapshot) {s : State}
    (hs : TimerInv s) (hterm : snap.status = "completed" ∨ snap.status = "error") :
    (tickResumed E (.ok snap) s).timers = [] := by
  have hc := clearInterval_of_timerInv hs
  unfold tickResumed
  by_cases h1 : snap.status = "completed"
  · simp only [h1, if_true]
    cases hthrown : (showResults E s.currentTaskId snap.results
        (updateProgress snap s.dom)).thrown with
    | none => simp [hc]
    | some message => simp [tickCatch, hc, clearInterval_nil]
  · have h2 : snap.status = "error" := by
      rcases hterm with h | h
      · exact absurd h h1
      · exact h
    simp [h1, h2, hc]

theorem showResults_progressBarWidth (E : Engine) (id : Option String)
    (results : Option Results) (d : Dom) :
    (showResults E id results d).dom.progressBarWidth = d.progressBarWidth := by
  cases results <;> rfl

theorem tickResumed_ok_progressBarWidth (E : Engine) (snap : Snapshot) (s : State) :
    (tickResumed E (.ok snap) s).dom.progressBarWidth = toString snap.progress ++ "%" := by
  unfold tickResumed
  by_cases h1 : snap.status = "completed"
  · simp only [h1, if_true]
    cases hthrown : (showResults E s.currentTaskId snap.results
        (updateProgress snap s.dom)).thrown with
    | none =>
      simp only [resetSubmitButton]
      exact showResults_progressBarWidth E _ _ _
    | some message =>
      simp only [tickCatch, resetSubmitButton, showError]
      exact showResults_progressBarWidth E _ _ _
  · by_cases h2 : snap.status = "error"
    · simp [h1, h2, showError, resetSubmitButton, updateProgress]
    · simp [h1, h2, updateProgress]

/-- Every event other than the delivery of a status snapshot leaves the width of
the progress bar as it was. -/
theorem step_progressBarWidth (E : Engine) {s s1 : State} (e : Event)
    (h : step E s e = some s1) (hne : ∀ snap : Snapshot, e ≠ .statusResponse (.ok snap)) :
    s1.dom.progressBarWidth = s.dom.progressBarWidth := by
  cases e with
  | submit f =>
    simp only [step, Option.some.injEq] at h
    subst h
    rfl
  | processResponse r handle =>
    obtain ⟨_, _, rfl⟩ := step_processResponse_some h
    cases r with
    | notOk => rfl
    | rejected message => rfl
    | ok data =>
      simp only [submitResumed, startStatusPolling]
      split_ifs <;> rfl
  | tick id =>
    obtain ⟨_, rfl⟩ := step_tick_some h
    unfold tickCallback
    split_ifs <;> rfl
  | statusResponse r =>
    obtain ⟨_, rfl⟩ := step_statusResponse_some h
    cases r with
    | notOk => rfl
    | rejected message => rfl
    | ok snap => exact absurd rfl (hne snap)
  | reset =>
    simp only [step, Option.some.injEq] at h
    subst h
    unfold resetForm
    by_cases htr : truthyNumber s.statusCheckInterval = true <;> simp [htr]

theorem step_tick_none (E : Engine) {s : State} (ht : s.timers = []) (id : Nat) :
    step E s (.tick id) = none := by
  simp [step, ht]

/-! ## The claims -/

/-- C1: in every state reachable from the initial state by any sequence of form
submissions, submit responses, timer ticks, status responses and `resetForm`
calls, at most one polling timer is scheduled and a scheduled timer is the one
whose id is stored in `statusCheckInterval`; `startStatusPolling` called in
such a state leaves exactly the new timer scheduled, the previously stored one
being cancelled. -/
theorem single_polling_timer (E : Engine) (es : List Event) (s : State)
    (h : run E initialState es = some s) :
    s.timers.length ≤ 1 ∧ (∀ t ∈ s.timers, s.statusCheckInterval = some t) ∧
      ∀ handle : Nat,
        (startStatusPolling handle s).timers = [handle] ∧
        (startStatusPolling handle s).statusCheckInterval = some handle ∧
        ∀ old : Nat, s.statusCheckInterval = some old → old ≠ handle →
          old ∉ (startStatusPolling handle s).timers := by
  have hinv := timerInv_reachable E es h
  refine ⟨?_, ?_, ?_⟩
  · rcases hinv with h0 | ⟨t, _, ht, _⟩
    · simp [h0]
    · simp [ht]
  · intro t hmem
    rcases hinv with h0 | ⟨t1, _, ht, hsci⟩
    · rw [h0] at hmem; exact absurd hmem (List.not_mem_nil t)
    · rw [ht] at hmem
      rw [List.mem_singleton.mp hmem]; exact hsci
  · intro handle
    obtain ⟨h1, h2⟩ := startStatusPolling_timers hinv handle
    refine ⟨h1, h2, ?_⟩
    intro old _ hne hmem
    rw [h1] at hmem
    exact hne (List.mem_singleton.mp hmem)

/-- C1 on a run with two submissions: only the second timer is left scheduled. -/
theorem single_polling_timer_witness :
    run sampleEngine initialState doubleSubmit = some (stateAfter sampleEngine doubleSubmit) ∧
      (stateAfter sampleEngine doubleSubmit).timers = [2] ∧
      (stateAfter sampleEngine doubleSubmit).timers.length ≤ 1 ∧
      ∀ t ∈ (stateAfter sampleEngine doubleSubmit).timers,
        (stateAfter sampleEngine doubleSubmit).statusCheckInterval = some t :=
  ⟨by decide, by decide,
    (single_polling_timer sampleEngine doubleSubmit _ (by decide)).1,
    (single_polling_timer sampleEngine doubleSubmit _ (by decide)).2.1⟩

/-- The claim C2 fails when a submission is outstanding at the reset: after
`submit` and `resetForm()` no status request has been issued, and with no new
submission the success response of the outstanding one stores `t1` and starts
a timer whose next tick requests `/api/status/t1`. -/
theorem polling_resumes_after_reset :
    run sampleEngine initialState inFlightAtReset
        = some (stateAfter sampleEngine inFlightAtReset) ∧
      (stateAfter sampleEngine submitThenReset).timers = [] ∧
      (stateAfter sampleEngine submitThenReset).currentTaskId = none ∧
      statusRequests (stateAfter sampleEngine submitThenReset).sent = [] ∧
      (stateAfter sampleEngine inFlightAtReset).timers = [1] ∧
      (stateAfter sampleEngine inFlightAtReset).currentTaskId = some "t1" ∧
      statusRequests (stateAfter sampleEngine inFlightAtReset).sent = ["/api/status/t1"] := by
  decide

/-- C2, amended: for every state the controller can reach, after `resetForm` the
progress, results and error panels are hidden, `currentTaskId` is `null` and no
polling timer is scheduled; hence no timer can tick and a tick callback run in
that state would return at its guard without a request.  No status request is
issued until the success response of a submission is handled, whether the
submission is new or was outstanding at the reset: along every continuation in
which no successful `/api/process` response is delivered none is issued, and
when no submission was outstanding at the reset none is issued along every
continuation without a new submission. -/
theorem resetForm_idle (E : Engine) (es : List Event) (s : State)
    (h : run E initialState es = some s) :
    (resetForm s).dom.progressSection = "none" ∧
      (resetForm s).dom.resultsSection = "none" ∧
      (resetForm s).dom.errorSection = "none" ∧
      (resetForm s).currentTaskId = none ∧
      (resetForm s).timers = [] ∧
      (∀ id : Nat, step E (resetForm s) (.tick id) = none) ∧
      tickCallback (resetForm s) = resetForm s ∧
      (∀ (later : List Event) (s1 : State), (later.all fun e => !e.isProcessOk) = true →
        run E (resetForm s) later = some s1 →
        s1.timers = [] ∧ statusRequests s1.sent = statusRequests s.sent) ∧
      (s.pendingProcess = 0 →
        ∀ (later : List Event) (s1 : State), (later.all fun e => !e.isSubmit) = true →
          run E (resetForm s) later = some s1 →
          s1.timers = [] ∧ statusRequests s1.sent = statusRequests s.sent) := by
  have hinv := timerInv_reachable E es h
  have ht := resetForm_timers hinv
  obtain ⟨_, hid, hp, hr, he⟩ := resetForm_fields s
  refine ⟨hp, hr, he, hid, ht, fun id => step_tick_none E ht id, ?_, ?_, ?_⟩
  · simp [tickCallback, hid, truthyString]
  · intro later s1 hall hrun
    obtain ⟨h1, h2⟩ := run_without_timer E later ht hall hrun
    exact ⟨h1, by rw [h2, resetForm_sent]⟩
  · intro hpend later s1 hall hrun
    have hpend1 : (resetForm s).pendingProcess = 0 := by
      rw [resetForm_pendingProcess]; exact hpend
    obtain ⟨h1, h2⟩ := run_without_submission E later ht hpend1 hall hrun
    exact ⟨h1, by rw [h2, resetForm_sent]⟩

/-- C2 on a run that is polling when `resetForm` is called. -/
theorem resetForm_idle_witness :
    run sampleEngine initialState pollingRun = some (stateAfter sampleEngine pollingRun) ∧
      (stateAfter sampleEngine pollingRun).timers = [1] ∧
      (stateAfter sampleEngine pollingRun).dom.progressSection = "block" ∧
      (resetForm (stateAfter sampleEngine pollingRun)).dom.progressSection = "none" ∧
      (resetForm (stateAfter sampleEngine pollingRun)).currentTaskId = none ∧
      (resetForm (stateAfter sampleEngine pollingRun)).timers = [] :=
  ⟨by decide, by decide, by decide,
    (resetForm_idle sampleEngine pollingRun _ (by decide)).1,
    (resetForm_idle sampleEngine pollingRun _ (by decide)).2.2.2.1,
    (resetForm_idle sampleEngine pollingRun _ (by decide)).2.2.2.2.1⟩

/-! ### C3: the numbers of the job request -/

theorem parseSign_of_not_minus (S : List Char) (h : S.head? ≠ some '-') : parseSign S = 1 := by
  unfold parseSign
  split
  · simp at h
  · rfl

theorem parseInt_nonneg_of_not_minus (str : String) (n : Int)
    (hminus : (str.toList.dropWhile isWhiteSpace).head? ≠ some '-')
    (h : parseInt str = .finite n) : 0 ≤ n := by
  unfold parseInt at h
  simp only [parseSign_of_not_minus _ hminus] at h
  split_ifs at h
  unfold toNumber at h
  split at h
  · simp only [one_mul, JsNumber.finite.injEq] at h
    rw [← h]
    exact Int.natCast_nonneg _
  · exact absurd h (by simp)

theorem jsonNumber_orOne_ne_zero (x : JsNumber) (n : Int)
    (h : jsonNumber (orOne x) = some n) : n ≠ 0 := by
  cases x with
  | nan =>
    simp only [orOne, jsonNumber, Option.some.injEq] at h
    omega
  | finite m =>
    by_cases hm : m = 0
    · simp only [orOne, hm, if_true, jsonNumber, Option.some.injEq] at h
      omega
    · simp only [orOne, hm, if_false, jsonNumber, Option.some.injEq] at h
      omega
  | infinite negative => simp [orOne, jsonNumber] at h

theorem jsonNumber_orOne_eq_none (x : JsNumber) :
    jsonNumber (orOne x) = none ↔ ∃ negative : Bool, x = .infinite negative := by
  cases x with
  | nan => simp [orOne, jsonNumber]
  | finite m => by_cases hm : m = 0 <;> simp [orOne, jsonNumber, hm]
  | infinite negative => simp [orOne, jsonNumber]

/-- The claim C3 fails at a frame interval of `-5` and a frame cap of `0`: the job
request carries `frame_interval = -5`, which is not positive, and
`max_frames = 0`, which is neither positive nor `null`. -/
theorem job_request_not_positive :
    (buildRequest ⟨"https://youtu.be/abc", "-5", "0", "high"⟩).frame_interval = some (-5) ∧
      (buildRequest ⟨"https://youtu.be/abc", "-5", "0", "high"⟩).max_frames = some 0 := by
  decide

set_option maxRecDepth 100000 in
set_option exponentiation.threshold 2000 in
/-- Digits beyond the precision of a double are rounded: `9007199254740993`, which
is `2 ^ 53 + 1`, is sent as `9007199254740992`. -/
theorem job_request_rounded :
    (buildRequest ⟨"https://youtu.be/abc", "9007199254740993", "", "high"⟩).frame_interval
      = some 9007199254740992 := by
  decide

set_option maxRecDepth 100000 in
set_option exponentiation.threshold 2000 in
/-- Digits beyond the range of a double give `Infinity`, which `|| 1` keeps and
`JSON.stringify` writes as `null`: 310 nines are sent as `null`, for the frame
interval as for the frame cap. -/
theorem job_request_overflow :
    parseInt (String.mk (List.replicate 310 '9')) = .infinite false ∧
      (buildRequest ⟨"https://youtu.be/abc", String.mk (List.replicate 310 '9'),
        String.mk (List.replicate 310 '9'), "high"⟩).frame_interval = none ∧
      (buildRequest ⟨"https://youtu.be/abc", String.mk (List.replicate 310 '9'),
        String.mk (List.replicate 310 '9'), "high"⟩).max_frames = none := by
  decide

/-- C3, amended: for every pair of form field strings the job request has a
`frame_interval` that is a non-zero integer or `null`.  It is `null` exactly
when `parseInt` gives an infinity (digits beyond the range of a double); it is
`1` when the field is empty or `parseInt` gives `NaN` or `0`; otherwise it is
the number `parseInt` gives, the double nearest to the digits read, which is
positive unless the first non-blank character of the field is `-`.  The
`max_frames` is `null` when the field is empty, does not parse or overflows,
and otherwise the number `parseInt` gives, which may be `0` and is negative
only when the field starts with `-`.  Frame interval `"2"` and frame cap
`"100"` give `2` and `100`. -/
theorem job_request_numbers (f : FormInputs) :
    (∀ n : Int, (buildRequest f).frame_interval = some n → n ≠ 0) ∧
      ((buildRequest f).frame_interval = none ↔
        ∃ negative : Bool, parseInt f.frameInterval = .infinite negative) ∧
      (f.frameInterval = "" → (buildRequest f).frame_interval = some 1) ∧
      (parseInt f.frameInterval = .nan ∨ parseInt f.frameInterval = .finite 0 →
        (buildRequest f).frame_interval = some 1) ∧
      (∀ n : Int, parseInt f.frameInterval = .finite n → n ≠ 0 →
        (buildRequest f).frame_interval = some n) ∧
      ((f.frameInterval.toList.dropWhile isWhiteSpace).head? ≠ some '-' →
        ∀ n : Int, (buildRequest f).frame_interval = some n → 0 < n) ∧
      (f.maxFrames = "" → (buildRequest f).max_frames = none) ∧
      (buildRequest f).max_frames = jsonNumber (parseInt f.maxFrames) ∧
      ((f.maxFrames.toList.dropWhile isWhiteSpace).head? ≠ some '-' →
        ∀ n : Int, (buildRequest f).max_frames = some n → 0 ≤ n) ∧
      buildRequest ⟨"https://youtu.be/abc", "2", "100", "high"⟩
        = ⟨"https://youtu.be/abc", some 2, some 100, "high"⟩ := by
  have hmax : (buildRequest f).max_frames = jsonNumber (parseInt f.maxFrames) := by
    unfold buildRequest
    by_cases he : f.maxFrames = ""
    · simp only [he, if_true]; decide
    · simp [he]
  have hfi : (buildRequest f).frame_interval = jsonNumber (orOne (parseInt f.frameInterval)) :=
    rfl
  refine ⟨?_, ?_, ?_, ?_, ?_, ?_, ?_, hmax, ?_, by decide⟩
  · intro n hn
    rw [hfi] at hn
    exact jsonNumber_orOne_ne_zero _ n hn
  · rw [hfi]
    exact jsonNumber_orOne_eq_none _
  · intro he
    rw [hfi, he]; decide
  · intro hp
    rw [hfi]
    rcases hp with hp | hp <;> rw [hp] <;> rfl
  · intro n hn hn0
    rw [hfi, hn]
    simp [orOne, jsonNumber, hn0]
  · intro hminus n hn
    rw [hfi] at hn
    have hne := jsonNumber_orOne_ne_zero _ n hn
    cases hp : parseInt f.frameInterval with
    | nan =>
      rw [hp] at hn
      simp only [orOne, jsonNumber, Option.some.injEq] at hn
      omega
    | finite m =>
      have h0 := parseInt_nonneg_of_not_minus _ m hminus hp
      rw [hp] at hn
      by_cases hm : m = 0
      · simp only [orOne, hm, if_true, jsonNumber, Option.some.injEq] at hn
        omega
      · simp only [orOne, hm, if_false, jsonNumber, Option.some.injEq] at hn
        omega
    | infinite negative =>
      rw [hp] at hn
      simp [orOne, jsonNumber] at hn
  · intro he
    rw [hmax, he]; decide
  · intro hminus n hn
    rw [hmax] at hn
    cases hp : parseInt f.maxFrames with
    | nan => rw [hp] at hn; simp [jsonNumber] at hn
    | finite m =>
      rw [hp] at hn
      simp only [jsonNumber, Option.some.injEq] at hn
      rw [← hn]
      exact parseInt_nonneg_of_not_minus _ m hminus hp
    | infinite negative => rw [hp] at hn; simp [jsonNumber] at hn

/-- C3, amended, on a frame interval of ` 7 frames` and an empty frame cap. -/
theorem job_request_numbers_witness :
    (buildRequest ⟨"https://youtu.be/abc", " 7 frames", "", "high"⟩).frame_interval = some 7 ∧
      (0 : Int) < 7 ∧
      (buildRequest ⟨"https://youtu.be/abc", " 7 frames", "", "high"⟩).max_frames = none :=
  ⟨by decide,
    (job_request_numbers ⟨"https://youtu.be/abc", " 7 frames", "", "high"⟩).2.2.2.2.2.1
      (by decide) 7 (by decide),
    (job_request_numbers ⟨"https://youtu.be/abc", " 7 frames", "", "high"⟩).2.2.2.2.2.2.1 rfl⟩

/-! ### C4: rendering of a completed snapshot -/

/-- The claim C4 fails at `overall_color = [10, 20, 30]`: the strings written are
`rgb(10, 20, 30)` and `(10, 20, 30)`, with a blank after each comma, not
`rgb(10,20,30)` and `(10,20,30)`. -/
theorem completed_color_strings_have_blanks :
    run sampleEngine initialState completedRun = some (stateAfter sampleEngine completedRun) ∧
      (stateAfter sampleEngine completedRun).dom.colorBox = "rgb(10, 20, 30)" ∧
      (stateAfter sampleEngine completedRun).dom.colorBox ≠ "rgb(10,20,30)" ∧
      (stateAfter sampleEngine completedRun).dom.rgbValue = "(10, 20, 30)" ∧
      (stateAfter sampleEngine completedRun).dom.rgbValue ≠ "(10,20,30)" := by
  decide

/-- C4, amended: for every completed status snapshot whose results carry
`overall_color = [r, g, b]`, `overall_color_hex = h`, `timeline_image = t` and
`results_file = f`, and for current task handle `id`, handling the snapshot
hides the progress panel, shows the results panel, sets the color box
background to `rgb(r, g, b)` and the RGB text to `(r, g, b)`, each with a comma
and a blank between the channels, the hex text to `h`, the JSON download link
to `/api/download/id/f` and the image download link to `/api/download/id/t`. -/
theorem completed_snapshot_rendering (E : Engine) (s : State) (snap : Snapshot)
    (res : Results) (r g b : Int) (id : String)
    (hp : s.pendingStatus ≠ 0) (hid : s.currentTaskId = some id)
    (hst : snap.status = "completed") (hres : snap.results = some res)
    (hrgb : res.overall_color = [r, g, b]) :
    ∃ s1 : State, step E s (.statusResponse (.ok snap)) = some s1 ∧
      s1.dom.progressSection = "none" ∧
      s1.dom.resultsSection = "block" ∧
      s1.dom.colorBox
        = "rgb(" ++ toString r ++ ", " ++ toString g ++ ", " ++ toString b ++ ")" ∧
      s1.dom.rgbValue
        = "(" ++ toString r ++ ", " ++ toString g ++ ", " ++ toString b ++ ")" ∧
      s1.dom.hexValue = res.overall_color_hex ∧
      s1.dom.downloadJson = "/api/download/" ++ id ++ "/" ++ res.results_file ∧
      s1.dom.downloadImage = "/api/download/" ++ id ++ "/" ++ res.timeline_image := by
  refine ⟨tickResumed E (.ok snap) { s with pendingStatus := s.pendingStatus - 1 }, ?_, ?_⟩
  · simp [step, hp]
  · simp [tickResumed, hst, hres, showResults, hrgb, hid, templateElem, templateNullable,
      resetSubmitButton]

/-- C4, amended, on the payload `sampleResults` for the task `t1`. -/
theorem completed_snapshot_rendering_witness :
    ∃ s1 : State,
      step sampleEngine (stateAfter sampleEngine pollingRun)
        (.statusResponse (.ok ⟨"completed", 100, "Done", some sampleResults⟩)) = some s1 ∧
      s1.dom.progressSection = "none" ∧
      s1.dom.resultsSection = "block" ∧
      s1.dom.colorBox
        = "rgb(" ++ toString (10 : Int) ++ ", " ++ toString (20 : Int) ++ ", "
          ++ toString (30 : Int) ++ ")" ∧
      s1.dom.rgbValue
        = "(" ++ toString (10 : Int) ++ ", " ++ toString (20 : Int) ++ ", "
          ++ toString (30 : Int) ++ ")" ∧
      s1.dom.hexValue = sampleResults.overall_color_hex ∧
      s1.dom.downloadJson = "/api/download/" ++ "t1" ++ "/" ++ sampleResults.results_file ∧
      s1.dom.downloadImage = "/api/download/" ++ "t1" ++ "/" ++ sampleResults.timeline_image :=
  completed_snapshot_rendering sampleEngine (stateAfter sampleEngine pollingRun)
    ⟨"completed", 100, "Done", some sampleResults⟩ sampleResults 10 20 30 "t1"
    (by decide) (by decide) rfl rfl rfl

/-! ### C5 and C6: failures -/

/-- C5: in every reachable state in which a status request is outstanding, that is
after a tick with a non-empty task handle, a response that is not `ok`, and
likewise a snapshot with `status = "error"` and message `m`, cancels the
polling timer, so that no timer is left that could tick and issue a further
status request, hides the progress panel, shows the error panel with the text
`Failed to get status`, respectively `m`, and re-enables the submit control. -/
theorem status_failure_stops_polling (E : Engine) (es : List Event) (s : State)
    (h : run E initialState es = some s) (hp : s.pendingStatus ≠ 0) :
    (∃ s1 : State, step E s (.statusResponse .notOk) = some s1 ∧
        s1.timers = [] ∧ (∀ id : Nat, step E s1 (.tick id) = none) ∧
        s1.sent = s.sent ∧
        s1.dom.progressSection = "none" ∧ s1.dom.errorSection = "block" ∧
        s1.dom.errorMessage = "Failed to get status" ∧ s1.dom.submitDisabled = false) ∧
      ∀ snap : Snapshot, snap.status = "error" →
        ∃ s1 : State, step E s (.statusResponse (.ok snap)) = some s1 ∧
          s1.timers = [] ∧ (∀ id : Nat, step E s1 (.tick id) = none) ∧
          s1.sent = s.sent ∧
          s1.dom.progressSection = "none" ∧ s1.dom.errorSection = "block" ∧
          s1.dom.errorMessage = snap.message ∧ s1.dom.submitDisabled = false := by
  have hinv : TimerInv { s with pendingStatus := s.pendingStatus - 1 } :=
    timerInv_congr (timerInv_reachable E es h) rfl rfl
  have hc := clearInterval_of_timerInv hinv
  simp only at hc
  constructor
  · refine ⟨tickResumed E .notOk { s with pendingStatus := s.pendingStatus - 1 }, ?_, ?_⟩
    · simp [step, hp]
    · have ht : (tickResumed E .notOk { s with pendingStatus := s.pendingStatus - 1 }).timers
          = [] := by
        simp [tickResumed, tickCatch, hc]
      refine ⟨ht, fun id => step_tick_none E ht id, ?_⟩
      simp [tickResumed, tickCatch, showError, resetSubmitButton]
  · intro snap hst
    refine ⟨tickResumed E (.ok snap) { s with pendingStatus := s.pendingStatus - 1 }, ?_, ?_⟩
    · simp [step, hp]
    · have ht : (tickResumed E (.ok snap)
          { s with pendingStatus := s.pendingStatus - 1 }).timers = [] := by
        simp [tickResumed, hst, hc]
      refine ⟨ht, fun id => step_tick_none E ht id, ?_⟩
      simp [tickResumed, hst, showError, resetSubmitButton]

/-- C5 on a run that is polling when the status request gets a failure response. -/
theorem status_failure_stops_polling_witness :
    run sampleEngine initialState pollingRun = some (stateAfter sampleEngine pollingRun) ∧
      (stateAfter sampleEngine pollingRun).pendingStatus ≠ 0 ∧
      (stateAfter sampleEngine pollingRun).timers = [1] ∧
      ∃ s1 : State,
        step sampleEngine (stateAfter sampleEngine pollingRun) (.statusResponse .notOk)
          = some s1 ∧
        s1.timers = [] ∧ (∀ id : Nat, step sampleEngine s1 (.tick id) = none) ∧
        s1.sent = (stateAfter sampleEngine pollingRun).sent ∧
        s1.dom.progressSection = "none" ∧ s1.dom.errorSection = "block" ∧
        s1.dom.errorMessage = "Failed to get status" ∧ s1.dom.submitDisabled = false :=
  ⟨by decide, by decide, by decide,
    (status_failure_stops_polling sampleEngine pollingRun _ (by decide) (by decide)).1⟩

/-- C6: for every submission whose `POST /api/process` response is not `ok`, the
submit handler shows the message `Failed to start processing` in the error
panel, restores the submit control (enabled, label `Analyze Video`, spinner
hidden), leaves `currentTaskId` unchanged, schedules no polling timer and
sends no further request. -/
theorem submission_failure (E : Engine) (s : State) (handle : Nat)
    (hp : s.pendingProcess ≠ 0) :
    ∃ s1 : State, step E s (.processResponse .notOk handle) = some s1 ∧
      s1.dom.errorSection = "block" ∧
      s1.dom.errorMessage = "Failed to start processing" ∧
      s1.dom.progressSection = "none" ∧
      s1.dom.submitDisabled = false ∧
      s1.dom.submitText = "Analyze Video" ∧
      s1.dom.submitSpinner = "none" ∧
      s1.currentTaskId = s.currentTaskId ∧
      s1.timers = s.timers ∧
      s1.statusCheckInterval = s.statusCheckInterval ∧
      s1.sent = s.sent ∧
      s1.pendingProcess = s.pendingProcess - 1 ∧
      s1.pendingStatus = s.pendingStatus := by
  refine ⟨submitResumed .notOk handle { s with pendingProcess := s.pendingProcess - 1 }, ?_, ?_⟩
  · simp [step, hp, Response.isOk]
  · simp [submitResumed, submitCatch, showError, resetSubmitButton]

/-- C6 on the first submission of a freshly loaded page. -/
theorem submission_failure_witness :
    (submitHandler ⟨"https://youtu.be/abc", "2", "100", "high"⟩ initialState).pendingProcess ≠ 0 ∧
      ∃ s1 : State,
        step sampleEngine (submitHandler ⟨"https://youtu.be/abc", "2", "100", "high"⟩ initialState)
          (.processResponse .notOk 1) = some s1 ∧
        s1.dom.errorSection = "block" ∧
        s1.dom.errorMessage = "Failed to start processing" ∧
        s1.dom.progressSection = "none" ∧
        s1.dom.submitDisabled = false ∧
        s1.dom.submitText = "Analyze Video" ∧
        s1.dom.submitSpinner = "none" ∧
        s1.currentTaskId
          = (submitHandler ⟨"https://youtu.be/abc", "2", "100", "high"⟩ initialState).currentTaskId ∧
        s1.timers = (submitHandler ⟨"https://youtu.be/abc", "2", "100", "high"⟩ initialState).timers ∧
        s1.statusCheckInterval
          = (submitHandler ⟨"https://youtu.be/abc", "2", "100", "high"⟩
              initialState).statusCheckInterval ∧
        s1.sent = (submitHandler ⟨"https://youtu.be/abc", "2", "100", "high"⟩ initialState).sent ∧
        s1.pendingProcess
          = (submitHandler ⟨"https://youtu.be/abc", "2", "100", "high"⟩
              initialState).pendingProcess - 1 ∧
        s1.pendingStatus
          = (submitHandler ⟨"https://youtu.be/abc", "2", "100", "high"⟩ initialState).pendingStatus :=
  ⟨by decide,
    submission_failure sampleEngine
      (submitHandler ⟨"https://youtu.be/abc", "2", "100", "high"⟩ initialState) 1 (by decide)⟩

/-! ### C7: lifetime of the task handle -/

theorem tickResumed_currentTaskId (E : Engine) (r : Response Snapshot) (s : State) :
    (tickResumed E r s).currentTaskId = s.currentTaskId := by
  cases r with
  | notOk => rfl
  | rejected message => rfl
  | ok status =>
    unfold tickResumed
    by_cases h1 : status.status = "completed"
    · simp only [h1, if_true]
      cases (showResults E s.currentTaskId status.results (updateProgress status s.dom)).thrown
        <;> rfl
    · by_cases h2 : status.status = "error"
      · simp [h1, h2]
      · simp [h1, h2]

/-- The claim C7 fails on a task `t1` that is reported completed: `currentTaskId`
is still `t1` after the tick that handled the terminal snapshot, and it is
still `t1` after a new submission has begun and while its response is
outstanding. -/
theorem task_handle_survives_completion :
    run sampleEngine initialState completedRun = some (stateAfter sampleEngine completedRun) ∧
      (stateAfter sampleEngine completedRun).currentTaskId = some "t1" ∧
      (submitHandler ⟨"https://youtu.be/xyz", "1", "", "low"⟩
        (stateAfter sampleEngine completedRun)).currentTaskId = some "t1" ∧
      (submitHandler ⟨"https://youtu.be/xyz", "1", "", "low"⟩
        (stateAfter sampleEngine completedRun)).pendingProcess = 1 := by
  decide

/-- C7, amended: the task handle is not emptied by a terminal snapshot nor by the
start of a submission.  The continuation of a tick leaves `currentTaskId`
unchanged, whatever the response and so also for a snapshot with status
`completed` or `error`, for which it is the polling timer that is cancelled:
in every reachable state with a status request outstanding no timer is left
after such a snapshot.  The synchronous part of the submit handler leaves
`currentTaskId` unchanged, and so does a failed submission; it is replaced
when a successful submit response stores the new handle and emptied only by
`resetForm`. -/
theorem task_handle_lifetime (E : Engine) (s : State) :
    (∀ r : Response Snapshot, (tickResumed E r s).currentTaskId = s.currentTaskId) ∧
      (∀ f : FormInputs, (submitHandler f s).currentTaskId = s.currentTaskId) ∧
      (∀ (r : Response ProcessData) (handle : Nat), r.isOk = false →
        (submitResumed r handle s).currentTaskId = s.currentTaskId) ∧
      (∀ (data : ProcessData) (handle : Nat),
        (submitResumed (.ok data) handle s).currentTaskId = some data.task_id) ∧
      (tickCallback s).currentTaskId = s.currentTaskId ∧
      (resetForm s).currentTaskId = none ∧
      (∀ (es : List Event) (snap : Snapshot), run E initialState es = some s →
        s.pendingStatus ≠ 0 → snap.status = "completed" ∨ snap.status = "error" →
        ∃ s1 : State, step E s (.statusResponse (.ok snap)) = some s1 ∧
          s1.currentTaskId = s.currentTaskId ∧ s1.timers = [] ∧
          ∀ id : Nat, step E s1 (.tick id) = none) := by
  refine ⟨fun r => tickResumed_currentTaskId E r s, fun f => rfl, ?_, ?_, ?_,
    (resetForm_fields s).2.1, ?_⟩
  · intro r handle hr
    cases r with
    | notOk => rfl
    | rejected message => rfl
    | ok data => simp [Response.isOk] at hr
  · intro data handle
    simp only [submitResumed, startStatusPolling]
    split_ifs <;> rfl
  · unfold tickCallback
    split_ifs <;> rfl
  · intro es snap hrun hp hterm
    have hinv : TimerInv { s with pendingStatus := s.pendingStatus - 1 } :=
      timerInv_congr (timerInv_reachable E es hrun) rfl rfl
    have ht := tickResumed_terminal_timers E snap hinv hterm
    refine ⟨tickResumed E (.ok snap) { s with pendingStatus := s.pendingStatus - 1 }, ?_,
      tickResumed_currentTaskId E _ _, ht, fun id => step_tick_none E ht id⟩
    simp [step, hp]

/-- C7, amended, on a run that is polling when the task is reported completed. -/
theorem task_handle_lifetime_witness :
    run sampleEngine initialState pollingRun = some (stateAfter sampleEngine pollingRun) ∧
      (stateAfter sampleEngine pollingRun).currentTaskId = some "t1" ∧
      (stateAfter sampleEngine pollingRun).timers = [1] ∧
      ∃ s1 : State,
        step sampleEngine (stateAfter sampleEngine pollingRun)
          (.statusResponse (.ok ⟨"completed", 100, "Done", some sampleResults⟩)) = some s1 ∧
        s1.currentTaskId = (stateAfter sampleEngine pollingRun).currentTaskId ∧
        s1.timers = [] ∧
        ∀ id : Nat, step sampleEngine s1 (.tick id) = none :=
  ⟨by decide, by decide, by decide,
    (task_handle_lifetime sampleEngine (stateAfter sampleEngine pollingRun)).2.2.2.2.2.2
      pollingRun ⟨"completed", 100, "Done", some sampleResults⟩ (by decide) (by decide)
      (Or.inl rfl)⟩

/-! ### C8: visibility of the panels -/

/-- C8 on a completed snapshot whose results payload is missing: `showResults` has
shown the results panel when reading the payload throws, and the `catch` block
then shows the error panel, so both panels are visible at once. -/
theorem results_and_error_both_visible :
    run sampleEngine initialState completedWithoutResults
        = some (stateAfter sampleEngine completedWithoutResults) ∧
      visible (stateAfter sampleEngine completedWithoutResults).dom.resultsSection = true ∧
      visible (stateAfter sampleEngine completedWithoutResults).dom.errorSection = true ∧
      visible (stateAfter sampleEngine completedWithoutResults).dom.progressSection = false := by
  decide

/-- The same two panels are visible together when two polls of one task overlap
and the second reply is a failure, every payload being well formed. -/
theorem overlapping_polls_show_two_panels :
    run sampleEngine initialState overlappingPolls
        = some (stateAfter sampleEngine overlappingPolls) ∧
      visible (stateAfter sampleEngine overlappingPolls).dom.resultsSection = true ∧
      visible (stateAfter sampleEngine overlappingPolls).dom.errorSection = true := by
  decide

/-! ### C9 and C10: the progress display -/

/-- The claim C9 fails on a submission that follows a completed task: after the
synchronous part of the submit handler the progress bar still has the width
`100%` that the earlier task left. -/
theorem progress_bar_not_reset :
    run sampleEngine initialState completedRun = some (stateAfter sampleEngine completedRun) ∧
      (stateAfter sampleEngine completedRun).dom.progressBarWidth = "100%" ∧
      (submitHandler ⟨"https://youtu.be/xyz", "1", "", "low"⟩
        (stateAfter sampleEngine completedRun)).dom.progressSection = "block" ∧
      (submitHandler ⟨"https://youtu.be/xyz", "1", "", "low"⟩
        (stateAfter sampleEngine completedRun)).dom.progressBarWidth = "100%" ∧
      (submitHandler ⟨"https://youtu.be/xyz", "1", "", "low"⟩
        (stateAfter sampleEngine completedRun)).dom.progressBarWidth ≠ "0%" := by
  decide

/-- C9, amended: for every form input and every prior controller state,
immediately after the synchronous part of the submit handler and before any
network response the submit control is disabled with the busy indicator
shown, the results and error panels are hidden and the progress panel is
visible; the progress bar and the progress message keep what they had, which
is 0% on a freshly loaded page and the width `p%` of an earlier task
otherwise.  The width changes only when a status snapshot is handled: every
other event, `resetForm` included, leaves it as it was, and a snapshot with
progress `p` sets it to `p%`. -/
theorem submit_synchronous_part (E : Engine) (f : FormInputs) (s : State) :
    step E s (.submit f) = some (submitHandler f s) ∧
      (submitHandler f s).dom.submitDisabled = true ∧
      (submitHandler f s).dom.submitSpinner = "inline-block" ∧
      (submitHandler f s).dom.submitText = "Processing..." ∧
      (submitHandler f s).dom.resultsSection = "none" ∧
      (submitHandler f s).dom.errorSection = "none" ∧
      (submitHandler f s).dom.progressSection = "block" ∧
      (submitHandler f s).dom.progressBarWidth = s.dom.progressBarWidth ∧
      (submitHandler f s).dom.progressMessage = s.dom.progressMessage ∧
      (submitHandler f initialState).dom.progressBarWidth = "0%" ∧
      (submitHandler f s).sent = s.sent ++ [Request.post "/api/process" (buildRequest f)] ∧
      (∀ (e : Event) (s1 : State), step E s e = some s1 →
        (∀ snap : Snapshot, e ≠ .statusResponse (.ok snap)) →
        s1.dom.progressBarWidth = s.dom.progressBarWidth) ∧
      (resetForm s).dom.progressBarWidth = s.dom.progressBarWidth ∧
      (∀ (snap : Snapshot) (s1 : State), step E s (.statusResponse (.ok snap)) = some s1 →
        s1.dom.progressBarWidth = toString snap.progress ++ "%") :=
  ⟨rfl, rfl, rfl, rfl, rfl, rfl, rfl, rfl, rfl, rfl, rfl,
    fun e _ h hne => step_progressBarWidth E e h hne,
    step_progressBarWidth E .reset rfl (fun _ hc => Event.noConfusion hc),
    fun snap _ h => by
      obtain ⟨_, rfl⟩ := step_statusResponse_some h
      exact tickResumed_ok_progressBarWidth E snap _⟩

/-- C9, amended, on a submission that follows a completed task and on the
`resetForm()` call after it. -/
theorem submit_synchronous_part_witness :
    step sampleEngine (stateAfter sampleEngine completedRun) .reset
        = some (resetForm (stateAfter sampleEngine completedRun)) ∧
      (stateAfter sampleEngine completedRun).dom.progressBarWidth = "100%" ∧
      (resetForm (stateAfter sampleEngine completedRun)).dom.progressBarWidth
        = (stateAfter sampleEngine completedRun).dom.progressBarWidth :=
  ⟨rfl, by decide,
    (submit_synchronous_part sampleEngine ⟨"https://youtu.be/xyz", "1", "", "low"⟩
      (stateAfter sampleEngine completedRun)).2.2.2.2.2.2.2.2.2.2.2.1 .reset _ rfl
      (fun _ hc => Event.noConfusion hc)⟩

/-- C10: for every state in which a status request is outstanding, that is after
a tick with a non-empty task handle, a snapshot with `status = "running"`,
`progress = p` and `message = m` sets the width of the progress bar to `p%`
and the progress message to `m` and changes nothing else: the timers, the
stored timer id, `currentTaskId`, the panels, the submit control and every
other property of the page are as before. -/
theorem running_snapshot_frame (E : Engine) (s : State) (snap : Snapshot)
    (hp : s.pendingStatus ≠ 0) (hst : snap.status = "running") :
    step E s (.statusResponse (.ok snap))
      = some { s with
          pendingStatus := s.pendingStatus - 1
          dom := { s.dom with
            progressBarWidth := toString snap.progress ++ "%"
            progressMessage := snap.message } } := by
  simp [step, hp, tickResumed, hst, updateProgress]

/-- C10 on a snapshot with progress 40 for a run that is polling. -/
theorem running_snapshot_frame_witness :
    (stateAfter sampleEngine pollingRun).pendingStatus ≠ 0 ∧
      step sampleEngine (stateAfter sampleEngine pollingRun)
          (.statusResponse (.ok ⟨"running", 40, "Extracting frames", none⟩))
        = some { stateAfter sampleEngine pollingRun with
            pendingStatus := (stateAfter sampleEngine pollingRun).pendingStatus - 1
            dom := { (stateAfter sampleEngine pollingRun).dom with
              progressBarWidth := toString (40 : Int) ++ "%"
              progressMessage := "Extracting frames" } } :=
  ⟨by decide,
    running_snapshot_frame sampleEngine (stateAfter sampleEngine pollingRun)
      ⟨"running", 40, "Extracting frames", none⟩ (by decide) rfl⟩

end YoutuberAverager
